import Mathlib

/-!
Shallow embedding of the SquirrelDB C client SDK (src/src/squirreldb.c,
src/include/squirreldb.h): frame codec, handshake, correlation table,
subscription registry, dispatch loop, and request submission, together
with proofs about the behaviour the specification describes.

Bytes are modelled as `Nat` values (< 256 where it matters), C strings as
`List Char`, and fallible I/O as explicit outcome parameters.
-/

namespace Sqrl

/-- `sqrl_error_t` from include/squirreldb.h. -/
inductive SqrlError where
  | SQRL_OK
  | SQRL_ERR_CONNECT
  | SQRL_ERR_HANDSHAKE
  | SQRL_ERR_VERSION_MISMATCH
  | SQRL_ERR_AUTH_FAILED
  | SQRL_ERR_SEND
  | SQRL_ERR_RECV
  | SQRL_ERR_TIMEOUT
  | SQRL_ERR_CLOSED
  | SQRL_ERR_INVALID_ARG
  | SQRL_ERR_MEMORY
  | SQRL_ERR_ENCODE
  | SQRL_ERR_DECODE
  | SQRL_ERR_SERVER
  | SQRL_ERR_NOT_FOUND
deriving DecidableEq

/-- `sqrl_encoding_t` from include/squirreldb.h. -/
inductive SqrlEncoding where
  | SQRL_ENCODING_MSGPACK
  | SQRL_ENCODING_JSON
deriving DecidableEq

/-- `SQRL_MAX_MESSAGE_SIZE` (16 MiB) from include/squirreldb.h. -/
def SQRL_MAX_MESSAGE_SIZE : Nat := 16 * 1024 * 1024

/-- `MSG_TYPE_REQUEST` from squirreldb.c. -/
def MSG_TYPE_REQUEST : Nat := 1

/-- Numeric value of the `SQRL_ENCODING_JSON` enum constant (0x02),
as written into the frame's encoding byte by `send_frame`. -/
def ENCODING_JSON_TAG : Nat := 2

/-- `read_u32_be`: big-endian 32-bit read of four bytes (each < 256).
The C ORs disjoint shifted bytes, which on bytes equals this sum. -/
def read_u32_be (b0 b1 b2 b3 : Nat) : Nat :=
  b0 * 16777216 + b1 * 65536 + b2 * 256 + b3

/-- `write_u32_be`: big-endian 32-bit write; `& 0xFF` is `% 256`,
`>> k` is division by `2^k`. -/
def write_u32_be (v : Nat) : List Nat :=
  [v / 16777216 % 256, v / 65536 % 256, v / 256 % 256, v % 256]

/-- `send_frame`: builds the wire frame for a JSON payload: 4-byte BE
length field carrying `payload_len + 2` (cast to `uint32_t`, hence
`% 2^32`), then the message-type byte `MSG_TYPE_REQUEST`, the encoding
byte `SQRL_ENCODING_JSON`, then the payload bytes. -/
def send_frame (payload : List Nat) : List Nat :=
  write_u32_be ((payload.length + 2) % 4294967296) ++
    [MSG_TYPE_REQUEST, ENCODING_JSON_TAG] ++ payload

/-- `recv_frame`: reads the 6-byte header from the incoming byte stream
(`SQRL_ERR_RECV` if the socket closes short), rejects with
`SQRL_ERR_DECODE` when `length < 2 || length > SQRL_MAX_MESSAGE_SIZE`,
then reads exactly `length - 2` payload bytes (`SQRL_ERR_RECV` if the
stream ends first). Returns the msg-type byte and the payload. -/
def recv_frame (stream : List Nat) : Except SqrlError (Nat × List Nat) :=
  match stream with
  | b0 :: b1 :: b2 :: b3 :: b4 :: _b5 :: rest =>
    let length := read_u32_be b0 b1 b2 b3
    if length < 2 ∨ length > SQRL_MAX_MESSAGE_SIZE then
      .error .SQRL_ERR_DECODE
    else if rest.length < length - 2 then
      .error .SQRL_ERR_RECV
    else
      .ok (b4, rest.take (length - 2))
  | _ => .error .SQRL_ERR_RECV

/-- The double-quote character (written via its code point). -/
def qchar : Char := Char.ofNat 34

/-- The opening curly brace character. -/
def obrace : Char := Char.ofNat 123

/-- The closing curly brace character. -/
def cbrace : Char := Char.ofNat 125

/-- `strstr`: index of the first occurrence of `pat` in `hay`
(`none` if absent; index 0 for the empty pattern, as in C). -/
def strstrIdx : List Char → List Char → Option Nat
  | [], pat => if pat.isPrefixOf ([] : List Char) then some 0 else none
  | c :: rest, pat =>
    if pat.isPrefixOf (c :: rest) then some 0
    else (strstrIdx rest pat).map (· + 1)

/-- `strchr(s, quote)` followed by copying the span before the quote:
`none` when no closing quote exists, else the prefix before it. -/
def takeUntilQuote (s : List Char) : Option (List Char) :=
  if qchar ∈ s then some (s.takeWhile (· ≠ qchar)) else none

/-- `json_get_string`: first searches for `"key":"`, returning the span up
to the next quote; otherwise searches for `"key":`, skips spaces/tabs, and
accepts only a quote-delimited value; `none` in every other case. -/
def json_get_string (json key : List Char) : Option (List Char) :=
  let pat1 := qchar :: (key ++ [qchar, ':', qchar])
  match strstrIdx json pat1 with
  | some i => takeUntilQuote (json.drop (i + pat1.length))
  | none =>
    let pat2 := qchar :: (key ++ [qchar, ':'])
    match strstrIdx json pat2 with
    | none => none
    | some i =>
      let s := (json.drop (i + pat2.length)).dropWhile
        (fun c => c = ' ' ∨ c = Char.ofNat 9)
      match s with
      | c :: rest => if c = qchar then takeUntilQuote rest else none
      | [] => none

/-- The brace-matching scan of `json_get_object`: consumes characters
updating the nesting depth, returning how many characters were consumed
when the depth reaches 0, or `none` if the string ends first. -/
def braceScan : List Char → Nat → Option Nat
  | _, 0 => some 0
  | [], _ + 1 => none
  | c :: rest, d + 1 =>
    let d' := if c = obrace then d + 2 else if c = cbrace then d else d + 1
    (braceScan rest d').map (· + 1)

/-- `json_get_object`: searches for `"key":`, skips spaces/tabs/newlines,
requires an opening brace, and returns the balanced-brace span including
both braces (`none` if braces never balance). -/
def json_get_object (json key : List Char) : Option (List Char) :=
  let pat := qchar :: (key ++ [qchar, ':'])
  match strstrIdx json pat with
  | none => none
  | some i =>
    let s := (json.drop (i + pat.length)).dropWhile
      (fun c => c = ' ' ∨ c = Char.ofNat 9 ∨ c = Char.ofNat 10)
    match s with
    | c :: rest =>
      if c = obrace then (braceScan rest 1).map (fun n => obrace :: rest.take n)
      else none
    | [] => none

/-- One lowercase hexadecimal digit, as produced by `%02x`. -/
def hexChar (d : Nat) : Char :=
  if d < 10 then Char.ofNat (48 + d) else Char.ofNat (87 + d)

/-- The two lowercase hex digits `%02x` prints for one byte. -/
def byteHex (b : Nat) : List Char :=
  [hexChar (b / 16 % 16), hexChar (b % 16)]

/-- `uuid_to_string`: renders 16 bytes as lowercase hex with dashes after
the 4th, 6th, 8th and 10th bytes (8-4-4-4-12 groups). -/
def uuid_to_string : List Nat → List Char
  | [b0, b1, b2, b3, b4, b5, b6, b7, b8, b9, b10, b11, b12, b13, b14, b15] =>
    byteHex b0 ++ byteHex b1 ++ byteHex b2 ++ byteHex b3 ++ ['-'] ++
    byteHex b4 ++ byteHex b5 ++ ['-'] ++
    byteHex b6 ++ byteHex b7 ++ ['-'] ++
    byteHex b8 ++ byteHex b9 ++ ['-'] ++
    byteHex b10 ++ byteHex b11 ++ byteHex b12 ++ byteHex b13 ++
    byteHex b14 ++ byteHex b15
  | _ => []

/-- Outcome of `recv_all` for the fixed-size handshake response: the
`select` timeout, an I/O error, the peer closing, or exactly the
requested bytes. -/
inductive RecvResult where
  | timedOut
  | ioError
  | closed
  | ok (bytes : List Nat)

/-- `do_handshake` after the request packet is built: `sendOk` tells
whether `send_all` succeeded (else `SQRL_ERR_SEND`); every failing
`recv_all` outcome — timeout, I/O error, closure — returns `-1` in C and
maps to `SQRL_ERR_RECV`; otherwise the 19-byte response is inspected:
status 1 → `SQRL_ERR_VERSION_MISMATCH`, status 2 → `SQRL_ERR_AUTH_FAILED`,
any other nonzero status → `SQRL_ERR_HANDSHAKE`, status 0 → success with
the session id rendered from bytes 3..18 and the encoding chosen by bit 0
of the response flags byte. -/
def do_handshake (sendOk : Bool) (r : RecvResult) :
    Except SqrlError (List Char × SqrlEncoding) :=
  if sendOk = false then .error .SQRL_ERR_SEND
  else
    match r with
    | .timedOut => .error .SQRL_ERR_RECV
    | .ioError => .error .SQRL_ERR_RECV
    | .closed => .error .SQRL_ERR_RECV
    | .ok resp =>
      let status := resp.getD 0 0
      let respFlags := resp.getD 2 0
      if status = 1 then .error .SQRL_ERR_VERSION_MISMATCH
      else if status = 2 then .error .SQRL_ERR_AUTH_FAILED
      else if status ≠ 0 then .error .SQRL_ERR_HANDSHAKE
      else
        .ok (uuid_to_string ((resp.drop 3).take 16),
          if respFlags % 2 = 1 then .SQRL_ENCODING_MSGPACK
          else .SQRL_ENCODING_JSON)

/-- `pending_request_t`: one correlation-table entry. `calloc` zeroes the
struct, so a fresh entry has `response = none` (NULL), `error = SQRL_OK`
(0) and `completed = false`. The `error` field is declared in the C struct
but never written after creation. -/
structure PendingReq where
  id : List Char
  response : Option (List Char)
  error : SqrlError
  completed : Bool
deriving DecidableEq

/-- `subscription_entry_t`: one registry entry; the callback function
pointer and `user_data` are modelled together by an opaque tag `cb`. -/
structure SubEntry where
  id : List Char
  cb : Nat
deriving DecidableEq

/-- The per-connection state the dispatch loop touches: the liveness
flag, the reader-running flag, the correlation table and the
subscription registry (each a linked list in C). -/
structure ClientState where
  connected : Bool
  readerRunning : Bool
  pending : List PendingReq
  subs : List SubEntry
deriving DecidableEq

/-- `dispatch_response`: walks the pending list; on the first entry whose
id `strcmp`-equals the message id, stores the response, sets `completed`
and signals, then breaks; entries after the first match, and all entries
when no id matches, are untouched. -/
def dispatch_response (tbl : List PendingReq) (id json : List Char) :
    List PendingReq :=
  match tbl with
  | [] => []
  | req :: rest =>
    if req.id = id then
      { req with response := some json, completed := true } :: rest
    else
      req :: dispatch_response rest id json

/-- `sqrl_change_type_t` from include/squirreldb.h. -/
inductive ChangeType where
  | SQRL_CHANGE_INITIAL
  | SQRL_CHANGE_INSERT
  | SQRL_CHANGE_UPDATE
  | SQRL_CHANGE_DELETE
deriving DecidableEq

/-- The change-event type parsed by `dispatch_change`: the event struct is
zero-initialised (`= {0}`), so a missing or unrecognised `"type"` field
leaves `SQRL_CHANGE_INITIAL` (0). -/
def parseChangeType (json : List Char) : ChangeType :=
  match json_get_string json ("type".data) with
  | none => .SQRL_CHANGE_INITIAL
  | some t =>
    if t = "initial".data then .SQRL_CHANGE_INITIAL
    else if t = "insert".data then .SQRL_CHANGE_INSERT
    else if t = "update".data then .SQRL_CHANGE_UPDATE
    else if t = "delete".data then .SQRL_CHANGE_DELETE
    else .SQRL_CHANGE_INITIAL

/-- `dispatch_change`: walks the subscription list under `subs_mutex`; on
the first entry whose id matches it builds the change event and invokes
that entry's callback, then breaks. It never modifies the registry.
The result records which callback (if any) fired and with which event
type. -/
def dispatch_change (subs : List SubEntry) (id json : List Char) :
    Option (Nat × ChangeType) :=
  match subs with
  | [] => none
  | e :: rest =>
    if e.id = id then some (e.cb, parseChangeType json)
    else dispatch_change rest id json

/-- One result of `recv_frame` as consumed by the reader loop: either an
error or a decoded (msg-type byte, payload text) pair. -/
def FrameResult := Except SqrlError (Nat × List Char)

/-- The body of `reader_thread_func` after a successful `recv_frame`:
extract the `"id"` and `"type"` string fields; only when both extract does
it dispatch — to `dispatch_change` (through `json_get_object "change"`)
when the type is `"change"`, else to `dispatch_response`. Returns the
updated state and the callback invocation, if any. -/
def readerProcessFrame (st : ClientState) (_msgType : Nat)
    (json : List Char) : ClientState × Option (Nat × ChangeType) :=
  match json_get_string json ("id".data), json_get_string json ("type".data) with
  | some msgId, some respType =>
    if respType = "change".data then
      match json_get_object json ("change".data) with
      | some changeJson => (st, dispatch_change st.subs msgId changeJson)
      | none => (st, none)
    else
      ({ st with pending := dispatch_response st.pending msgId json }, none)
  | _, _ => (st, none)

/-- `reader_thread_func`: while `reader_running`, read one frame; on a
`recv_frame` error set `connected := false` (the re-check of
`reader_running` before clearing it is kept) and break — pending
requests are NOT touched on this path; on success process the frame and
continue. The input list abstracts the successive `recv_frame` outcomes;
exhausting it models the loop still blocked in `recv`. Returns the final
state and the trace of callback invocations. -/
def readerLoop (st : ClientState) :
    List FrameResult → ClientState × List (Nat × ChangeType)
  | [] => (st, [])
  | r :: rest =>
    if st.readerRunning then
      match r with
      | .error _ =>
        ((if st.readerRunning then { st with connected := false } else st), [])
      | .ok (t, json) =>
        let (st', inv) := readerProcessFrame st t json
        let (stF, invs) := readerLoop st' rest
        (stF, inv.toList ++ invs)
    else (st, [])

/-- What `pthread_cond_timedwait` on a pending request resolves to when
no further completion will ever arrive before the deadline: if the entry
was completed, `send_request` consumes the stored response
(`SQRL_ERR_RECV` when the stored response pointer is NULL), otherwise the
wait times out and `send_request` takes the `SQRL_ERR_TIMEOUT` path. -/
def awaitOutcome (req : PendingReq) : Except SqrlError (List Char) :=
  if req.completed then
    match req.response with
    | some r => .ok r
    | none => .error .SQRL_ERR_RECV
  else .error .SQRL_ERR_TIMEOUT

/-- Removal of a pending entry from the table (the unlink in
`send_request`'s error path and `cleanup` label); the removed node is the
one `send_request` itself registered, which sits at the first position
holding its id. -/
def removePending (tbl : List PendingReq) (id : List Char) :
    List PendingReq :=
  match tbl with
  | [] => []
  | req :: rest =>
    if req.id = id then rest else req :: removePending rest id

/-- What the dispatch loop delivers to a given `send_request` while it
waits: either a response payload completed its entry, or nothing before
the deadline. -/
inductive WaitResult where
  | delivered (json : List Char)
  | timeout

/-- `send_request`: registers a fresh pending entry (consed at the head of
the table), sends the frame (on send failure: unlink, return the send
error), then waits; a delivered completion stores the response into the
entry, a timeout leaves it uncompleted. Either way the entry is unlinked
before returning, and the result is the await outcome. Returns
(result, final table). -/
def send_request (tbl : List PendingReq) (id : List Char) (sendOk : Bool)
    (w : WaitResult) : Except SqrlError (List Char) × List PendingReq :=
  let req : PendingReq := ⟨id, none, .SQRL_OK, false⟩
  let tbl1 := req :: tbl
  if sendOk = false then (.error .SQRL_ERR_SEND, removePending tbl1 id)
  else
    let tbl2 :=
      match w with
      | .delivered json => dispatch_response tbl1 id json
      | .timeout => tbl1
    let req' := (tbl2.headD req)
    (awaitOutcome req', removePending tbl2 id)

/-- `next_request_id`: pre-increments the connection's `uint64_t` counter
and prints it with `%llu`; the printed value for the `k`-th call
(`k = 0, 1, ...`) on a fresh connection is `(k + 1) mod 2^64` in
decimal. -/
def natToDecimal (n : Nat) : List Char :=
  if n = 0 then ['0'] else ((Nat.digits 10 n).map (fun d => Char.ofNat (48 + d))).reverse

/-- The id string produced by the `k`-th `next_request_id` call on a
fresh connection (counter starts at 0, pre-increment, `uint64_t`
wrap-around). -/
def nthRequestId (k : Nat) : List Char :=
  natToDecimal ((k + 1) % 18446744073709551616)

/-- `sqrl_init`: given the current global flag, returns the error code and
the new flag value. -/
def sqrl_init (g : Bool) : SqrlError × Bool :=
  if g then (.SQRL_OK, g) else (.SQRL_OK, true)

/-- `sqrl_cleanup`: clears the global flag. -/
def sqrl_cleanup (_g : Bool) : Bool := false

/-- `recv_frame` threaded with the global initialized flag: the C body
never reads `g_initialized`. -/
def recv_frame_g (_g : Bool) (stream : List Nat) :
    Except SqrlError (Nat × List Nat) := recv_frame stream

/-- `send_frame` threaded with the global initialized flag: the C body
never reads `g_initialized`. -/
def send_frame_g (_g : Bool) (payload : List Nat) : List Nat :=
  send_frame payload

/-- `do_handshake` threaded with the global initialized flag: the C body
never reads `g_initialized`. -/
def do_handshake_g (_g : Bool) (sendOk : Bool) (r : RecvResult) :
    Except SqrlError (List Char × SqrlEncoding) := do_handshake sendOk r

/-- `send_request` threaded with the global initialized flag: the C body
never reads `g_initialized`. -/
def send_request_g (_g : Bool) (tbl : List PendingReq) (id : List Char)
    (sendOk : Bool) (w : WaitResult) :
    Except SqrlError (List Char) × List PendingReq :=
  send_request tbl id sendOk w

/-- `reader_thread_func` threaded with the global initialized flag: the C
body never reads `g_initialized`. -/
def readerLoop_g (_g : Bool) (st : ClientState) (inputs : List FrameResult) :
    ClientState × List (Nat × ChangeType) := readerLoop st inputs

/-- The spec's wording of the session-id rendering, for comparison with
`uuid_to_string`: the 16 bytes as lowercase hex pairs, grouped
8-4-4-4-12 with dashes between the groups (4, 2, 2, 2, 6 bytes). -/
def uuidSpecRender (bs : List Nat) : List Char :=
  ((bs.take 4).map byteHex).flatten ++ ['-'] ++
  (((bs.drop 4).take 2).map byteHex).flatten ++ ['-'] ++
  (((bs.drop 6).take 2).map byteHex).flatten ++ ['-'] ++
  (((bs.drop 8).take 2).map byteHex).flatten ++ ['-'] ++
  ((bs.drop 10).map byteHex).flatten

/-- A character is a lowercase hexadecimal digit: `0`-`9` or `a`-`f`. -/
def isLowerHexDigit (c : Char) : Prop :=
  (48 ≤ c.toNat ∧ c.toNat ≤ 57) ∨ (97 ≤ c.toNat ∧ c.toNat ≤ 102)

instance (c : Char) : Decidable (isLowerHexDigit c) := by
  unfold isLowerHexDigit
  infer_instance

/-- Decodes a decimal digit string back to the number it prints
(inverse of `natToDecimal`, used to prove ids are never reused). -/
def decodeDecimal (l : List Char) : Nat :=
  Nat.ofDigits 10 ((l.map (fun c => c.toNat - 48)).reverse)

/-! ## Helper lemmas -/

theorem read_write_u32 (v : Nat) (h : v < 4294967296) :
    read_u32_be (v / 16777216 % 256) (v / 65536 % 256) (v / 256 % 256)
      (v % 256) = v := by
  unfold read_u32_be
  omega

/-! ## C5: frame decode bounds -/

/-- C5 (counterexample): the claim says decode fails iff the declared
length is < 2 or `length - 2` exceeds `SQRL_MAX_MESSAGE_SIZE`. The header
`[1,0,0,1,2,2]` declares length 16777217 = 16 MiB + 1, for which
`length - 2 = 16 MiB - 1` does not exceed the cap, yet `recv_frame`
rejects it: the code compares `length` itself, not `length - 2`, against
the maximum. -/
theorem frame_decode_bound_cex :
    recv_frame [1, 0, 0, 1, 2, 2] = .error .SQRL_ERR_DECODE ∧
    ¬(read_u32_be 1 0 0 1 < 2 ∨
      read_u32_be 1 0 0 1 - 2 > SQRL_MAX_MESSAGE_SIZE) :=
  ⟨rfl, by decide⟩

/-- C5 (amended): frame decode reads the 6 header bytes, extracts the
declared big-endian length, and fails with `SQRL_ERR_DECODE` if and only
if `length < 2` or `length` (not `length - 2`) exceeds
`SQRL_MAX_MESSAGE_SIZE`; otherwise it reads exactly `length - 2` payload
bytes and succeeds when the stream provides them. -/
theorem frame_decode_condition (b0 b1 b2 b3 b4 b5 : Nat) (rest : List Nat) :
    (recv_frame (b0 :: b1 :: b2 :: b3 :: b4 :: b5 :: rest) =
        .error .SQRL_ERR_DECODE ↔
      (read_u32_be b0 b1 b2 b3 < 2 ∨
        read_u32_be b0 b1 b2 b3 > SQRL_MAX_MESSAGE_SIZE)) ∧
    (¬(read_u32_be b0 b1 b2 b3 < 2 ∨
        read_u32_be b0 b1 b2 b3 > SQRL_MAX_MESSAGE_SIZE) →
      read_u32_be b0 b1 b2 b3 - 2 ≤ rest.length →
      recv_frame (b0 :: b1 :: b2 :: b3 :: b4 :: b5 :: rest) =
        .ok (b4, rest.take (read_u32_be b0 b1 b2 b3 - 2))) := by
  constructor
  · constructor
    · intro h
      by_contra hc
      simp only [recv_frame, hc, if_false] at h
      split at h <;> simp_all
    · intro h
      simp [recv_frame, h]
  · intro h hlen
    have hlt : ¬(rest.length < read_u32_be b0 b1 b2 b3 - 2) := by omega
    simp [recv_frame, h, hlt]

/-- C5 witness: a frame with declared length 2 (empty payload) decodes
successfully. -/
theorem frame_decode_condition_witness :
    recv_frame [0, 0, 0, 2, 1, 2] = .ok (1, []) :=
  (frame_decode_condition 0 0 0 2 1 2 []).2 (by decide) (by decide)

/-! ## C7: frame encode layout -/

/-- C7: for every payload (of representable size), the encoded frame is
the 4-byte big-endian length field holding `2 + len(payload)`, then the
message-type byte, the encoding-tag byte, then the payload — `6 +
len(payload)` bytes in total, with the length field decoding back to
`2 + len(payload)`. -/
theorem frame_encode_layout (payload : List Nat)
    (h : payload.length + 2 < 4294967296) :
    send_frame payload = write_u32_be (payload.length + 2) ++
      MSG_TYPE_REQUEST :: ENCODING_JSON_TAG :: payload ∧
    (write_u32_be (payload.length + 2)).length = 4 ∧
    read_u32_be ((payload.length + 2) / 16777216 % 256)
      ((payload.length + 2) / 65536 % 256)
      ((payload.length + 2) / 256 % 256)
      ((payload.length + 2) % 256) = payload.length + 2 ∧
    (send_frame payload).length = 6 + payload.length := by
  refine ⟨?_, rfl, read_write_u32 _ h, ?_⟩
  · simp [send_frame, Nat.mod_eq_of_lt h]
  · simp [send_frame, write_u32_be]
    omega

/-- C7 witness: the frame for an empty payload is the six bytes
`[0,0,0,2,1,2]`. -/
theorem frame_encode_layout_witness :
    send_frame [] = write_u32_be 2 ++ MSG_TYPE_REQUEST ::
      ENCODING_JSON_TAG :: [] ∧
    (write_u32_be 2).length = 4 ∧
    read_u32_be (2 / 16777216 % 256) (2 / 65536 % 256) (2 / 256 % 256)
      (2 % 256) = 2 ∧
    (send_frame []).length = 6 + 0 := by
  have h := frame_encode_layout [] (by decide)
  simpa using h

/-! ## C4: handshake outcome mapping -/

/-- C4 (counterexample): the claim says a read timeout during the
handshake fails with Timeout and a read/write error with HandshakeFailed;
in the code every failed `recv_all` (timeout included) maps to
`SQRL_ERR_RECV` and a failed send to `SQRL_ERR_SEND`, neither of which is
`SQRL_ERR_TIMEOUT` or `SQRL_ERR_HANDSHAKE`. -/
theorem handshake_error_mapping_cex :
    do_handshake true .timedOut = .error .SQRL_ERR_RECV ∧
    do_handshake false .timedOut = .error .SQRL_ERR_SEND ∧
    SqrlError.SQRL_ERR_RECV ≠ SqrlError.SQRL_ERR_TIMEOUT ∧
    SqrlError.SQRL_ERR_RECV ≠ SqrlError.SQRL_ERR_HANDSHAKE ∧
    SqrlError.SQRL_ERR_SEND ≠ SqrlError.SQRL_ERR_HANDSHAKE :=
  ⟨rfl, rfl, by decide, by decide, by decide⟩

/-- C4 (amended): the handshake maps response status 0 to success
(session id from bytes 3..18, encoding from bit 0 of the response flags),
status 1 to VersionMismatch, status 2 to AuthFailed and any other status
to HandshakeFailed; a write error fails with SendFailed, and a read
error, peer closure or read timeout fails with ReceiveFailed (not
Timeout). -/
theorem handshake_outcome_mapping :
    (∀ r, do_handshake false r = .error .SQRL_ERR_SEND) ∧
    do_handshake true .timedOut = .error .SQRL_ERR_RECV ∧
    do_handshake true .ioError = .error .SQRL_ERR_RECV ∧
    do_handshake true .closed = .error .SQRL_ERR_RECV ∧
    (∀ resp, resp.getD 0 0 = 1 →
      do_handshake true (.ok resp) = .error .SQRL_ERR_VERSION_MISMATCH) ∧
    (∀ resp, resp.getD 0 0 = 2 →
      do_handshake true (.ok resp) = .error .SQRL_ERR_AUTH_FAILED) ∧
    (∀ resp, resp.getD 0 0 ≠ 0 → resp.getD 0 0 ≠ 1 → resp.getD 0 0 ≠ 2 →
      do_handshake true (.ok resp) = .error .SQRL_ERR_HANDSHAKE) ∧
    (∀ resp, resp.getD 0 0 = 0 →
      do_handshake true (.ok resp) =
        .ok (uuid_to_string ((resp.drop 3).take 16),
          if resp.getD 2 0 % 2 = 1 then .SQRL_ENCODING_MSGPACK
          else .SQRL_ENCODING_JSON)) := by
  refine ⟨fun r => rfl, rfl, rfl, rfl, ?_, ?_, ?_, ?_⟩
  · intro resp h
    rw [List.getD_eq_getElem?_getD] at h
    simp [do_handshake, h]
  · intro resp h
    rw [List.getD_eq_getElem?_getD] at h
    simp [do_handshake, h]
  · intro resp h0 h1 h2
    rw [List.getD_eq_getElem?_getD] at h0 h1 h2
    simp [do_handshake, h0, h1, h2]
  · intro resp h
    rw [List.getD_eq_getElem?_getD] at h
    simp [do_handshake, h]

/-- C4 witness: a response with status byte 1 yields VersionMismatch. -/
theorem handshake_outcome_mapping_witness :
    do_handshake true (.ok [1, 0, 0]) = .error .SQRL_ERR_VERSION_MISMATCH :=
  handshake_outcome_mapping.2.2.2.2.1 [1, 0, 0] (by decide)

/-! ## C6: session id format -/

theorem hexChar_lowerHex : ∀ d, d < 16 → isLowerHexDigit (hexChar d) := by
  decide

theorem byteHex_lowerHex (b : Nat) : ∀ c ∈ byteHex b, isLowerHexDigit c := by
  intro c hc
  simp only [byteHex, List.mem_cons, List.not_mem_nil, or_false] at hc
  rcases hc with rfl | rfl
  · exact hexChar_lowerHex _ (Nat.mod_lt _ (by norm_num))
  · exact hexChar_lowerHex _ (Nat.mod_lt _ (by norm_num))

/-- C6: for a 19-byte handshake response with status byte 0, the session
id is exactly the 16 bytes at offsets 3..18 rendered as lowercase
hexadecimal in 8-4-4-4-12 dash-separated groups — a 36-character string
whose non-dash characters are all lowercase hex digits. -/
theorem session_id_format (r0 r1 r2 s0 s1 s2 s3 s4 s5 s6 s7 s8 s9 s10 s11
    s12 s13 s14 s15 : Nat) (h0 : r0 = 0) :
    do_handshake true (.ok [r0, r1, r2, s0, s1, s2, s3, s4, s5, s6, s7,
        s8, s9, s10, s11, s12, s13, s14, s15]) =
      .ok (uuid_to_string [s0, s1, s2, s3, s4, s5, s6, s7, s8, s9, s10,
          s11, s12, s13, s14, s15],
        if r2 % 2 = 1 then .SQRL_ENCODING_MSGPACK
        else .SQRL_ENCODING_JSON) ∧
    uuid_to_string [s0, s1, s2, s3, s4, s5, s6, s7, s8, s9, s10, s11,
        s12, s13, s14, s15] =
      uuidSpecRender [s0, s1, s2, s3, s4, s5, s6, s7, s8, s9, s10, s11,
        s12, s13, s14, s15] ∧
    (uuid_to_string [s0, s1, s2, s3, s4, s5, s6, s7, s8, s9, s10, s11,
        s12, s13, s14, s15]).length = 36 ∧
    ∀ c ∈ uuid_to_string [s0, s1, s2, s3, s4, s5, s6, s7, s8, s9, s10,
        s11, s12, s13, s14, s15], c = '-' ∨ isLowerHexDigit c := by
  subst h0
  refine ⟨by simp [do_handshake], by simp [uuid_to_string, uuidSpecRender],
    by simp [uuid_to_string, byteHex], ?_⟩
  intro c hc
  simp only [uuid_to_string, List.append_assoc, List.mem_append,
    List.mem_cons, List.not_mem_nil, or_false] at hc
  rcases hc with h | h | h | h | h | h | h | h | h | h | h | h | h | h |
      h | h | h | h | h | h <;>
    first
      | exact Or.inl h
      | exact Or.inr (byteHex_lowerHex _ _ h)

/-- C6 witness: the all-zero response yields the all-zero uuid string. -/
theorem session_id_format_witness :
    do_handshake true (.ok [0, 0, 0, 0, 0, 0, 0, 0, 0, 0, 0, 0, 0, 0, 0,
        0, 0, 0, 0]) =
      .ok (uuid_to_string [0, 0, 0, 0, 0, 0, 0, 0, 0, 0, 0, 0, 0, 0, 0,
          0],
        if 0 % 2 = 1 then .SQRL_ENCODING_MSGPACK
        else .SQRL_ENCODING_JSON) ∧
    uuid_to_string [0, 0, 0, 0, 0, 0, 0, 0, 0, 0, 0, 0, 0, 0, 0, 0] =
      uuidSpecRender [0, 0, 0, 0, 0, 0, 0, 0, 0, 0, 0, 0, 0, 0, 0, 0] ∧
    (uuid_to_string [0, 0, 0, 0, 0, 0, 0, 0, 0, 0, 0, 0, 0, 0, 0,
        0]).length = 36 ∧
    ∀ c ∈ uuid_to_string [0, 0, 0, 0, 0, 0, 0, 0, 0, 0, 0, 0, 0, 0, 0,
        0], c = '-' ∨ isLowerHexDigit c :=
  session_id_format 0 0 0 0 0 0 0 0 0 0 0 0 0 0 0 0 0 0 0 rfl

/-! ## C3: unmatched ids are silent no-ops -/

theorem dispatch_response_not_mem (tbl : List PendingReq)
    (id json : List Char) (h : id ∉ tbl.map PendingReq.id) :
    dispatch_response tbl id json = tbl := by
  induction tbl with
  | nil => rfl
  | cons req rest ih =>
    simp only [List.map_cons, List.mem_cons, not_or] at h
    simp only [dispatch_response]
    rw [if_neg (fun hc => h.1 hc.symm), ih h.2]

theorem dispatch_change_not_mem (subs : List SubEntry)
    (id json : List Char) (h : id ∉ subs.map SubEntry.id) :
    dispatch_change subs id json = none := by
  induction subs with
  | nil => rfl
  | cons e rest ih =>
    simp only [List.map_cons, List.mem_cons, not_or] at h
    simp only [dispatch_change]
    rw [if_neg (fun hc => h.1 hc.symm)]
    exact ih h.2

/-- C3: routing a decoded message whose id matches no pending request and
no active subscription is a silent no-op: the correlation table is
returned unchanged (no request completed), no subscription callback is
invoked, and both structures are untouched. -/
theorem unmatched_id_silent_noop (tbl : List PendingReq)
    (subs : List SubEntry) (id json : List Char)
    (hp : id ∉ tbl.map PendingReq.id) (hs : id ∉ subs.map SubEntry.id) :
    dispatch_response tbl id json = tbl ∧
    dispatch_change subs id json = none :=
  ⟨dispatch_response_not_mem tbl id json hp,
   dispatch_change_not_mem subs id json hs⟩

/-- C3 witness: dispatching id `b` against a table and registry that only
know id `a` changes nothing and fires no callback. -/
theorem unmatched_id_silent_noop_witness :
    dispatch_response [⟨['a'], none, .SQRL_OK, false⟩] ['b'] ['x'] =
      [⟨['a'], none, .SQRL_OK, false⟩] ∧
    dispatch_change [⟨['a'], 0⟩] ['b'] ['x'] = none :=
  unmatched_id_silent_noop [⟨['a'], none, .SQRL_OK, false⟩] [⟨['a'], 0⟩]
    ['b'] ['x'] (by decide) (by decide)

/-! ## C2: timeout removes the correlation id -/

/-- C2: when no response is delivered within the request timeout,
`send_request` returns `SQRL_ERR_TIMEOUT`, the correlation table is left
exactly as it was before the call (the registered entry is removed), and
a late response fabricated for that id afterwards is a silent no-op on
the table. -/
theorem submit_timeout_removes_id (tbl : List PendingReq)
    (id json : List Char) (hfresh : id ∉ tbl.map PendingReq.id) :
    (send_request tbl id true .timeout).1 = .error .SQRL_ERR_TIMEOUT ∧
    (send_request tbl id true .timeout).2 = tbl ∧
    dispatch_response (send_request tbl id true .timeout).2 id json
      = tbl := by
  have h2 : (send_request tbl id true .timeout).2 = tbl := by
    simp [send_request, removePending]
  refine ⟨by simp [send_request, awaitOutcome], h2, ?_⟩
  rw [h2]
  exact dispatch_response_not_mem tbl id json hfresh

/-- C2 witness: a timed-out request with id `5` against a table holding
id `1` returns Timeout, restores the table, and drops the late
response. -/
theorem submit_timeout_removes_id_witness :
    (send_request [⟨['1'], none, .SQRL_OK, false⟩] ['5'] true .timeout).1
      = .error .SQRL_ERR_TIMEOUT ∧
    (send_request [⟨['1'], none, .SQRL_OK, false⟩] ['5'] true .timeout).2
      = [⟨['1'], none, .SQRL_OK, false⟩] ∧
    dispatch_response
      (send_request [⟨['1'], none, .SQRL_OK, false⟩] ['5'] true
        .timeout).2 ['5'] ['x'] = [⟨['1'], none, .SQRL_OK, false⟩] :=
  submit_timeout_removes_id [⟨['1'], none, .SQRL_OK, false⟩] ['5'] ['x']
    (by decide)

/-! ## C9: frames without both id and type fields are dropped -/

/-- C9: a successfully decoded frame whose payload does not yield both an
`"id"` string field and a `"type"` string field is silently discarded:
the state is unchanged (no pending request completed), no callback fires,
and the loop goes on to the next frame exactly as if the frame had never
arrived. -/
theorem frame_without_id_type_dropped (st : ClientState) (t : Nat)
    (json : List Char) (rest : List FrameResult)
    (h : json_get_string json ("id".data) = none ∨
      json_get_string json ("type".data) = none) :
    readerProcessFrame st t json = (st, none) ∧
    readerLoop st (.ok (t, json) :: rest) = readerLoop st rest := by
  have hpf : readerProcessFrame st t json = (st, none) := by
    rcases h with h | h
    · simp [readerProcessFrame, h]
    · cases hid : json_get_string json ("id".data) <;>
        simp [readerProcessFrame, hid, h]
  refine ⟨hpf, ?_⟩
  by_cases hrun : st.readerRunning
  · simp only [readerLoop, hrun, if_true, hpf]
    cases rest with
    | nil => simp [readerLoop, hrun]
    | cons r rs => simp [readerLoop, hrun]
  · cases rest with
    | nil => simp [readerLoop, hrun]
    | cons r rs => simp [readerLoop, hrun]

/-- C9 witness: an empty payload has neither field; the loop drops the
frame and processes the rest unchanged. -/
theorem frame_without_id_type_dropped_witness :
    readerProcessFrame ⟨true, true, [], []⟩ 2 [] = (⟨true, true, [], []⟩, none) ∧
    readerLoop ⟨true, true, [], []⟩ [.ok (2, [])] = readerLoop ⟨true, true, [], []⟩ [] :=
  frame_without_id_type_dropped ⟨true, true, [], []⟩ 2 [] [] (Or.inl rfl)

/-! ## C1: reader failure does not fail pending requests -/

/-- C1 (counterexample): with one outstanding pending request, a
`recv_frame` failure makes the loop mark the connection dead and
terminate, but the pending entry is left exactly as it was — not
completed, its error still `SQRL_OK` — so the submit call waiting on it
resolves by its own timeout to `SQRL_ERR_TIMEOUT`, which is neither
ClosedConnection nor ReceiveFailed. The claimed `cancelAll` does not
happen. -/
theorem reader_failure_leaves_pending_cex :
    readerLoop ⟨true, true, [⟨['7'], none, .SQRL_OK, false⟩], []⟩
        [.error .SQRL_ERR_RECV] =
      (⟨false, true, [⟨['7'], none, .SQRL_OK, false⟩], []⟩, []) ∧
    awaitOutcome ⟨['7'], none, .SQRL_OK, false⟩ =
      .error .SQRL_ERR_TIMEOUT ∧
    SqrlError.SQRL_ERR_TIMEOUT ≠ SqrlError.SQRL_ERR_CLOSED ∧
    SqrlError.SQRL_ERR_TIMEOUT ≠ SqrlError.SQRL_ERR_RECV :=
  ⟨rfl, rfl, by decide, by decide⟩

/-- C1 (amended): when `recv_frame` fails (decode failure, socket error
or closure) while the reader is running, the loop marks the connection
dead and terminates without invoking any callback — and this is the only
terminating step while the reader runs, since a successfully decoded
frame always continues the loop — but the outstanding pending requests
are left untouched: none is completed or failed, so every submit call
still waiting resolves by its own timeout to `SQRL_ERR_TIMEOUT` rather
than to ClosedConnection/ReceiveFailed. -/
theorem reader_failure_marks_dead_only (st : ClientState) (e : SqrlError)
    (rest : List FrameResult) (hrun : st.readerRunning = true) :
    readerLoop st (.error e :: rest) =
      ({ st with connected := false }, []) ∧
    (readerLoop st (.error e :: rest)).1.pending = st.pending ∧
    (∀ req ∈ st.pending, req.completed = false →
      awaitOutcome req = .error .SQRL_ERR_TIMEOUT) ∧
    (∀ t json, readerLoop st (.ok (t, json) :: rest) =
      ((readerLoop (readerProcessFrame st t json).1 rest).1,
        (readerProcessFrame st t json).2.toList ++
          (readerLoop (readerProcessFrame st t json).1 rest).2)) := by
  have hloop : readerLoop st (.error e :: rest) =
      ({ st with connected := false }, []) := by
    simp [readerLoop, hrun]
  refine ⟨hloop, by rw [hloop], ?_, ?_⟩
  · intro req _ hc
    simp [awaitOutcome, hc]
  · intro t json
    simp [readerLoop, hrun]

/-- C1 amended witness: the concrete one-pending-request scenario. -/
theorem reader_failure_marks_dead_only_witness :
    readerLoop ⟨true, true, [⟨['9'], none, .SQRL_OK, false⟩], []⟩
        [.error .SQRL_ERR_DECODE] =
      (⟨false, true, [⟨['9'], none, .SQRL_OK, false⟩], []⟩, []) ∧
    awaitOutcome ⟨['9'], none, .SQRL_OK, false⟩ =
      .error .SQRL_ERR_TIMEOUT := by
  have h := reader_failure_marks_dead_only
    ⟨true, true, [⟨['9'], none, .SQRL_OK, false⟩], []⟩ .SQRL_ERR_DECODE
    [] rfl
  exact ⟨h.1, h.2.2.1 ⟨['9'], none, .SQRL_OK, false⟩ (by decide) rfl⟩

/-! ## C10: the global initialized flag has no effect -/

/-- C10: `sqrl_init` returns `SQRL_OK` from every flag state (hence for
any number of calls in any order with `sqrl_cleanup`), and the flag it
sets is consulted by no other operation: each modelled operation,
threaded with the global flag, produces identical results for both flag
values on every input. -/
theorem init_flag_no_effect :
    (∀ g, sqrl_init g = (.SQRL_OK, true)) ∧
    (∀ g, sqrl_init (sqrl_cleanup g) = (.SQRL_OK, true)) ∧
    (∀ g g' s, recv_frame_g g s = recv_frame_g g' s) ∧
    (∀ g g' p, send_frame_g g p = send_frame_g g' p) ∧
    (∀ g g' so r, do_handshake_g g so r = do_handshake_g g' so r) ∧
    (∀ g g' tbl id so w,
      send_request_g g tbl id so w = send_request_g g' tbl id so w) ∧
    (∀ g g' st ins, readerLoop_g g st ins = readerLoop_g g' st ins) :=
  ⟨fun g => by cases g <;> rfl,
   fun g => rfl,
   fun _ _ _ => rfl,
   fun _ _ _ => rfl,
   fun _ _ _ _ => rfl,
   fun _ _ _ _ _ _ => rfl,
   fun _ _ _ _ => rfl⟩

/-! ## C8: correlation id uniqueness and matching -/

theorem decode_natToDecimal (n : Nat) : decodeDecimal (natToDecimal n) = n := by
  unfold natToDecimal decodeDecimal
  by_cases h : n = 0
  · subst h
    decide
  · rw [if_neg h, List.map_reverse, List.reverse_reverse, List.map_map]
    have hmap : (Nat.digits 10 n).map
        ((fun c => c.toNat - 48) ∘ (fun d => Char.ofNat (48 + d))) =
        (Nat.digits 10 n).map id := by
      refine List.map_congr_left ?_
      intro d hd
      have hlt : d < 10 := Nat.digits_lt_base (by norm_num) hd
      have : ∀ e, e < 10 → (Char.ofNat (48 + e)).toNat - 48 = e := by decide
      exact this d hlt
    rw [hmap, List.map_id, Nat.ofDigits_digits]

theorem natToDecimal_injective : Function.Injective natToDecimal := by
  intro m n h
  have h2 := congrArg decodeDecimal h
  rwa [decode_natToDecimal, decode_natToDecimal] at h2

/-- C8: the decimal correlation ids produced by the pre-incremented
per-connection `uint64_t` counter are pairwise distinct over the first
2^64 submissions (so an id is unique among concurrently outstanding
requests and is never reused after a timeout drops its entry, since the
counter only moves forward); the dispatcher completes only an entry whose
id equals the response's id, leaving every other entry untouched; and a
submit call whose wait is resolved by a delivered response receives
exactly the payload routed to its own id. -/
theorem correlation_id_unique_and_matched :
    (∀ i j, i < j → j < 18446744073709551616 →
      nthRequestId i ≠ nthRequestId j) ∧
    (∀ tbl id json req, req ∈ dispatch_response tbl id json →
      req ∈ tbl ∨ (req.id = id ∧ req.response = some json ∧
        req.completed = true)) ∧
    (∀ tbl id json,
      (send_request tbl id true (.delivered json)).1 = .ok json) := by
  refine ⟨?_, ?_, ?_⟩
  · intro i j hij hj heq
    have h2 := natToDecimal_injective heq
    omega
  · intro tbl id json req hmem
    induction tbl with
    | nil => simp [dispatch_response] at hmem
    | cons r rest ih =>
      simp only [dispatch_response] at hmem
      by_cases hid : r.id = id
      · rw [if_pos hid] at hmem
        rcases List.mem_cons.mp hmem with rfl | hr
        · exact Or.inr ⟨hid, rfl, rfl⟩
        · exact Or.inl (List.mem_cons_of_mem _ hr)
      · rw [if_neg hid] at hmem
        rcases List.mem_cons.mp hmem with rfl | hr
        · exact Or.inl (List.mem_cons_self _ _)
        · rcases ih hr with h | h
          · exact Or.inl (List.mem_cons_of_mem _ h)
          · exact Or.inr h
  · intro tbl id json
    simp [send_request, dispatch_response, awaitOutcome]

/-- C8 witness: ids 1 and 2 differ; completing id `a` marks exactly the
matching entry; a delivered response comes back to its submitter. -/
theorem correlation_id_unique_and_matched_witness :
    nthRequestId 0 ≠ nthRequestId 1 ∧
    ((⟨['a'], some ['x'], .SQRL_OK, true⟩ : PendingReq) ∈
        ([⟨['a'], none, .SQRL_OK, false⟩] : List PendingReq) ∨
      (PendingReq.id ⟨['a'], some ['x'], .SQRL_OK, true⟩ = ['a'] ∧
        PendingReq.response ⟨['a'], some ['x'], .SQRL_OK, true⟩ =
          some ['x'] ∧
        PendingReq.completed ⟨['a'], some ['x'], .SQRL_OK, true⟩ =
          true)) ∧
    (send_request [] ['1'] true (.delivered ['y'])).1 = .ok ['y'] :=
  ⟨correlation_id_unique_and_matched.1 0 1 (by decide) (by decide),
   correlation_id_unique_and_matched.2.1 [⟨['a'], none, .SQRL_OK, false⟩]
     ['a'] ['x'] ⟨['a'], some ['x'], .SQRL_OK, true⟩ (by decide),
   correlation_id_unique_and_matched.2.2 [] ['1'] ['y']⟩

end Sqrl
